import Mathlib

/-!
# Observer pattern core (`src/observer_pattern.py`) — shallow embedding

The repository's Observer core consists of two `Subject` implementations,
`WeatherData` and `Button`, each owning an ordered observer registry
(a Python `list`) and some state fields, plus pull-based observers such as
`TemperatureDisplay`.

Modelling decisions:
* An observer object is represented by its identity, an element of an
  arbitrary type `α` with decidable equality (Python object identity /
  default `==`).
* Python `float` measurements are modelled as `ℚ`; every literal in the
  program and in the scenarios (`0.0`, `15`, `60.0`, …) is exact.
* Mutation is modelled by explicit state passing: each method returns the
  new object state. `notifyObservers` returns the trace of `update()`
  invocations (which observer, in order); since no observer in the source
  mutates the subject, each `update()` pulls the subject's current fields,
  so a notification event also records the four field values visible to
  the getters at that moment.
* `list.remove` (CPython) deletes the first element equal to the argument
  and raises `ValueError` when none matches; this is `listRemove` below,
  returning `none` for the raising case (the object is left unchanged by a
  raising call).
-/

set_option autoImplicit false

namespace ObserverPattern

variable {α : Type} [DecidableEq α]

/-- `WeatherData.__init__` state: observer registry plus the four
measurement fields (`observer_pattern.py` lines 96-101). -/
structure WeatherData (α : Type) where
  observers : List α
  temperature : ℚ
  pressure : ℚ
  humidity : ℚ
  pollen : ℚ
  deriving DecidableEq, Repr

/-- A freshly constructed `WeatherData()`: empty registry, all fields `0.0`. -/
def WeatherData.init : WeatherData α :=
  { observers := [], temperature := 0, pressure := 0, humidity := 0, pollen := 0 }

/-- `WeatherData.get_pollen` (line 102). -/
def WeatherData.get_pollen (wd : WeatherData α) : ℚ := wd.pollen

/-- `WeatherData.get_temperature` (line 105). -/
def WeatherData.get_temperature (wd : WeatherData α) : ℚ := wd.temperature

/-- `WeatherData.get_pressure` (line 108). -/
def WeatherData.get_pressure (wd : WeatherData α) : ℚ := wd.pressure

/-- `WeatherData.get_humidity` (line 111). -/
def WeatherData.get_humidity (wd : WeatherData α) : ℚ := wd.humidity

/-- `WeatherData.registerObserver`: `self.observers.append(observer)`. -/
def WeatherData.registerObserver (wd : WeatherData α) (o : α) : WeatherData α :=
  { wd with observers := wd.observers ++ [o] }

/-- CPython `list.remove(x)`: scan left to right, delete the first element
equal to `x`; `none` models the `ValueError` raised when no element matches. -/
def listRemove : List α → α → Option (List α)
  | [], _ => none
  | x :: xs, o => if x = o then some xs else (listRemove xs o).map (fun l => x :: l)

/-- `WeatherData.removeObserver`: `self.observers.remove(observer)`;
`none` models the propagating `ValueError` (the object is unchanged). -/
def WeatherData.removeObserver (wd : WeatherData α) (o : α) :
    Option (WeatherData α) :=
  (listRemove wd.observers o).map (fun l => { wd with observers := l })

/-- One `update()` invocation as seen by a pull-based observer: which
observer was called, and the subject's four field values its getters
return at that moment. -/
structure UpdateEvent (α : Type) where
  observer : α
  temperature : ℚ
  pressure : ℚ
  humidity : ℚ
  pollen : ℚ
  deriving DecidableEq, Repr

/-- The loop body of `WeatherData.notifyObservers` (lines 120-122):
`for observer in self.observers: observer.update()`.  Each iteration emits
one `update()` event; observers pull the subject's current fields (no
observer in the source mutates the subject during notification). -/
def notifyLoop (wd : WeatherData α) : List α → List (UpdateEvent α)
  | [] => []
  | o :: os =>
    { observer := o, temperature := wd.temperature, pressure := wd.pressure,
      humidity := wd.humidity, pollen := wd.pollen } :: notifyLoop wd os

/-- `WeatherData.notifyObservers`: iterate the registry in order, invoking
`update()` on each entry; the result is the trace of invocations. -/
def WeatherData.notifyObservers (wd : WeatherData α) : List (UpdateEvent α) :=
  notifyLoop wd wd.observers

/-- `WeatherData.set_measurements` (lines 124-129): assign `temperature`,
`pressure`, `humidity` from the arguments, assign `pollen := 15`
(the argument `pollen` is not used), then call `notifyObservers()` last.
Returns the new subject state and the notification trace. -/
def WeatherData.set_measurements (wd : WeatherData α)
    (temperature pressure humidity pollen : ℚ) :
    WeatherData α × List (UpdateEvent α) :=
  let wd' : WeatherData α :=
    { wd with temperature := temperature, pressure := pressure,
              humidity := humidity, pollen := 15 }
  (wd', wd'.notifyObservers)

/-- `ButtonState(IntEnum)`: `ON = auto()` (= 1), `OFF = auto()` (= 2). -/
inductive ButtonState where
  | ON
  | OFF
  deriving DecidableEq, Repr

/-- The `IntEnum` integer value of a `ButtonState`. -/
def ButtonState.toInt : ButtonState → Int
  | .ON => 1
  | .OFF => 2

/-- `Button.__init__` state (lines 184-186): `_state = ButtonState.ON`
and an empty observer registry. -/
structure Button (α : Type) where
  _state : ButtonState
  observers : List α
  deriving DecidableEq, Repr

/-- A freshly constructed `Button()`. -/
def Button.init : Button α := { _state := ButtonState.ON, observers := [] }

/-- `Button.registerObserver`: `self.observers.append(observer)`. -/
def Button.registerObserver (b : Button α) (o : α) : Button α :=
  { b with observers := b.observers ++ [o] }

/-- `Button.removeObserver`: `self.observers.remove(observer)`. -/
def Button.removeObserver (b : Button α) (o : α) : Option (Button α) :=
  (listRemove b.observers o).map (fun l => { b with observers := l })

/-- `Button.notifyObservers`: invoke `update()` on each registry entry in
order; the trace records which observer was called and the button state
its `get_state()` returns. -/
def Button.notifyObservers (b : Button α) : List (α × ButtonState) :=
  b.observers.map (fun o => (o, b._state))

/-- `Button.set_state`: assign `_state`, then notify. -/
def Button.set_state (b : Button α) (s : ButtonState) :
    Button α × List (α × ButtonState) :=
  let b' : Button α := { b with _state := s }
  (b', b'.notifyObservers)

/-- `Button.get_state`. -/
def Button.get_state (b : Button α) : ButtonState := b._state

/-- A registry operation on a subject: one `registerObserver` or
`removeObserver` call. -/
inductive RegOp (α : Type) where
  | register (o : α)
  | remove (o : α)
  deriving DecidableEq, Repr

/-- Apply one registry operation to a `WeatherData`.  A `removeObserver`
call whose `list.remove` raises leaves the object unchanged (the
exception propagates without mutating the registry). -/
def applyOp (wd : WeatherData α) : RegOp α → WeatherData α
  | .register o => wd.registerObserver o
  | .remove o => (wd.removeObserver o).getD wd

/-- Apply a sequence of `registerObserver` / `removeObserver` calls in
order. -/
def applyOps (wd : WeatherData α) : List (RegOp α) → WeatherData α
  | [] => wd
  | op :: ops => applyOps (applyOp wd op) ops

/-- The arguments of the `registerObserver` calls of a sequence, in call
order (the registration order of the observers). -/
def registersOf {α : Type} : List (RegOp α) → List α
  | [] => []
  | RegOp.register o :: ops => o :: registersOf ops
  | RegOp.remove _ :: ops => registersOf ops

/-- The notification loop when observer updates may raise: `raises o`
says whether `o.update()` raises an exception.  The loop invokes
`update()` entry by entry; the first raising observer terminates the
loop.  Result: the trace of observers whose `update()` was invoked, and
whether an exception propagated out of `notifyObservers()`. -/
def notifyLoopExc (raises : α → Bool) : List α → List α × Bool
  | [] => ([], false)
  | o :: os =>
    if raises o then ([o], true)
    else
      let r := notifyLoopExc raises os
      (o :: r.1, r.2)

/-- `WeatherData.notifyObservers` under possibly-raising observer
updates (lines 120-122): no isolation between observers, the exception
of one aborts the rest of the broadcast. -/
def WeatherData.notifyObserversExc (wd : WeatherData α) (raises : α → Bool) :
    List α × Bool :=
  notifyLoopExc raises wd.observers

/-- Python `repr` of a float for the exact values arising in this
program: an integral value prints with a trailing `.0` (`60.0`), used by
the f-strings of the display classes. -/
def floatRepr (q : ℚ) : String :=
  if q.den = 1 then toString q.num ++ ".0" else toString q

/-- `TemperatureDisplay` local state (lines 131-141): the `temperature`
field last pulled from the subject.  The held subject reference
(`self.subject`) is passed explicitly to `update`. -/
structure TemperatureDisplay where
  temperature : ℚ
  deriving DecidableEq, Repr

/-- `TemperatureDisplay.display`: the console line
`f"The current temperature is: {self.temperature}"`. -/
def TemperatureDisplay.display (d : TemperatureDisplay) : String :=
  "The current temperature is: " ++ floatRepr d.temperature

/-- `TemperatureDisplay.update` (lines 139-141): pull
`self.subject.get_temperature()`, store it in the local field, then call
`self.display()`.  Returns the new observer state and the console
output. -/
def TemperatureDisplay.update {α : Type} (d : TemperatureDisplay)
    (subject : WeatherData α) : TemperatureDisplay × String :=
  let d' : TemperatureDisplay := { d with temperature := subject.get_temperature }
  (d', d'.display)

/-! ## Helper lemmas -/

theorem listRemove_eq_none_of_not_mem {l : List α} {o : α} (h : o ∉ l) :
    listRemove l o = none := by
  induction l with
  | nil => rfl
  | cons x xs ih =>
    rw [List.mem_cons, not_or] at h
    simp only [listRemove, if_neg (fun hx : x = o => h.1 hx.symm), ih h.2,
      Option.map_none']

theorem listRemove_append_cons (l₁ l₂ : List α) (o : α) (h : o ∉ l₁) :
    listRemove (l₁ ++ o :: l₂) o = some (l₁ ++ l₂) := by
  induction l₁ with
  | nil => simp [listRemove]
  | cons x xs ih =>
    rw [List.mem_cons, not_or] at h
    simp only [List.cons_append, listRemove, if_neg (fun hx : x = o => h.1 hx.symm),
      List.append_eq, ih h.2, Option.map_some']

theorem listRemove_sublist {l l' : List α} {o : α}
    (h : listRemove l o = some l') : List.Sublist l' l := by
  induction l generalizing l' with
  | nil => simp [listRemove] at h
  | cons x xs ih =>
    simp only [listRemove] at h
    split at h
    · cases h
      exact List.sublist_cons_self x xs
    · obtain ⟨t, ht, rfl⟩ := Option.map_eq_some'.mp h
      exact (ih ht).cons₂ x

theorem listRemove_count {l l' : List α} {o : α}
    (h : listRemove l o = some l') : l'.count o + 1 = l.count o := by
  induction l generalizing l' with
  | nil => simp [listRemove] at h
  | cons x xs ih =>
    simp only [listRemove] at h
    split at h
    · cases h
      rename_i hx
      subst hx
      simp [List.count_cons]
    · obtain ⟨t, ht, rfl⟩ := Option.map_eq_some'.mp h
      rename_i hx
      have h1 : (x :: t).count o = t.count o := by simp [List.count_cons, hx]
      have h2 : (x :: xs).count o = xs.count o := by simp [List.count_cons, hx]
      rw [h1, h2]
      exact ih ht

omit [DecidableEq α] in
theorem notifyLoop_map_observer (wd : WeatherData α) (l : List α) :
    (notifyLoop wd l).map UpdateEvent.observer = l := by
  induction l with
  | nil => rfl
  | cons o os ih => simp [notifyLoop, ih]

omit [DecidableEq α] in
theorem notifyObservers_map_observer (wd : WeatherData α) :
    wd.notifyObservers.map UpdateEvent.observer = wd.observers :=
  notifyLoop_map_observer wd wd.observers

theorem applyOp_observers_sublist (wd : WeatherData α) (op : RegOp α) :
    List.Sublist (applyOp wd op).observers
      (wd.observers ++ registersOf [op]) := by
  cases op with
  | register o =>
    simp only [applyOp, WeatherData.registerObserver, registersOf]
    exact List.Sublist.refl _
  | remove o =>
    simp only [applyOp, WeatherData.removeObserver, registersOf, List.append_nil]
    cases hr : listRemove wd.observers o with
    | none => simp [hr]
    | some l => simpa [hr] using listRemove_sublist hr

theorem applyOps_observers_sublist (ops : List (RegOp α)) (wd : WeatherData α) :
    List.Sublist (applyOps wd ops).observers (wd.observers ++ registersOf ops) := by
  induction ops generalizing wd with
  | nil => simp [applyOps, registersOf]
  | cons op ops ih =>
    have h1 := applyOp_observers_sublist (α := α) wd op
    have h2 := ih (applyOp wd op)
    have h3 : List.Sublist ((applyOp wd op).observers ++ registersOf ops)
        ((wd.observers ++ registersOf [op]) ++ registersOf ops) :=
      h1.append_right _
    have h4 := h2.trans h3
    cases op with
    | register o => simpa [applyOps, registersOf] using h4
    | remove o => simpa [applyOps, registersOf] using h4

theorem applyOp_not_mem (wd : WeatherData α) (op : RegOp α) (o : α)
    (h : o ∉ wd.observers) (hop : op ≠ RegOp.register o) :
    o ∉ (applyOp wd op).observers := by
  cases op with
  | register x =>
    have hxo : x ≠ o := fun he => hop (by rw [he])
    simp only [applyOp, WeatherData.registerObserver, List.mem_append,
      List.mem_singleton, not_or]
    exact ⟨h, fun he => hxo he.symm⟩
  | remove x =>
    simp only [applyOp, WeatherData.removeObserver]
    cases hr : listRemove wd.observers x with
    | none => simpa [hr] using h
    | some l =>
      simp only [hr, Option.map_some', Option.getD_some]
      exact fun hm => h ((listRemove_sublist hr).mem hm)

theorem applyOps_not_mem (ops : List (RegOp α)) (wd : WeatherData α) (o : α)
    (h : o ∉ wd.observers) (hops : RegOp.register o ∉ ops) :
    o ∉ (applyOps wd ops).observers := by
  induction ops generalizing wd with
  | nil => exact h
  | cons op ops ih =>
    rw [List.mem_cons, not_or] at hops
    exact ih (applyOp wd op)
      (applyOp_not_mem wd op o h (fun he => hops.1 he.symm)) hops.2

omit [DecidableEq α] in
theorem notifyLoopExc_eq_take (raises : α → Bool) :
    ∀ (l : List α) (i : ℕ) (hi : i < l.length),
      (∀ o ∈ l.take i, raises o = false) →
      raises (l.get ⟨i, hi⟩) = true →
      notifyLoopExc raises l = (l.take (i + 1), true) := by
  intro l
  induction l with
  | nil => intro i hi; simp at hi
  | cons x xs ih =>
    intro i hi hbefore hraise
    cases i with
    | zero =>
      simp only [List.get] at hraise
      simp [notifyLoopExc, hraise]
    | succ n =>
      have hx : raises x = false := hbefore x (by simp [List.take])
      have hn : n < xs.length := Nat.lt_of_succ_lt_succ hi
      have hb : ∀ o ∈ xs.take n, raises o = false := fun o ho =>
        hbefore o (by simp [List.take, ho])
      have hr : raises (xs.get ⟨n, hn⟩) = true := hraise
      have := ih n hn hb hr
      simp [notifyLoopExc, hx, this, List.take]

/-! ## Claim theorems -/

/-- C1: for every sequence of `registerObserver`/`removeObserver` calls on a
freshly constructed `WeatherData`, a subsequent `notifyObservers()` invokes
`update()` exactly once on each entry of the current registry, in registry
order — the registry being a subsequence of the registration sequence, so
the order is the order the observers were registered — and invokes
`update()` on nothing else (the trace is exactly the registry).  A
`Button` subject behaves identically: its `notifyObservers()` trace is
exactly its registry, and its `registerObserver`/`removeObserver` perform
the very same registry operations (append / first-match removal). -/
theorem notify_updates_exactly_current_registry (ops : List (RegOp α)) :
    (((applyOps WeatherData.init ops).notifyObservers).map UpdateEvent.observer
        = (applyOps WeatherData.init ops).observers ∧
      (∀ o : α, (((applyOps WeatherData.init ops).notifyObservers).map
          UpdateEvent.observer).count o
          = (applyOps WeatherData.init ops).observers.count o) ∧
      List.Sublist (applyOps WeatherData.init ops).observers (registersOf ops)) ∧
    (∀ b : Button α, (b.notifyObservers).map Prod.fst = b.observers) ∧
    (∀ (b : Button α) (o : α), (b.registerObserver o).observers
        = b.observers ++ [o] ∧
      (b.removeObserver o).map Button.observers = listRemove b.observers o) := by
  refine ⟨⟨notifyObservers_map_observer _,
    fun o => by rw [notifyObservers_map_observer], ?_⟩, ?_, ?_⟩
  · simpa [WeatherData.init] using
      applyOps_observers_sublist ops (WeatherData.init (α := α))
  · intro b
    simp [Button.notifyObservers, Function.comp_def]
  · intro b o
    refine ⟨rfl, ?_⟩
    simp only [Button.removeObserver, Option.map_map]
    cases listRemove b.observers o with
    | none => rfl
    | some l => rfl

/-- C2: evaluating `set_measurements` at the demo's own call
`set_measurements(50.0, 120, 120, 123)`: the code assigns `pollen := 15`,
ignoring the passed argument `123`, while the claim (and the spec's stated
intent) requires all four fields to take the given arguments.  The other
three fields and the notify-after-assignment behaviour do match: with
observer `7` registered, the trace shows it observing the new values
(temperature `50`, pressure `120`, humidity `120`) — but pollen `15`. -/
theorem set_measurements_ignores_pollen_argument :
    ((WeatherData.init (α := ℕ)).set_measurements 50 120 120 123).1.pollen = 15 ∧
    (15 : ℚ) ≠ 123 ∧
    ((WeatherData.init (α := ℕ)).registerObserver 7).set_measurements 50 120 120 123
      = (⟨[7], 50, 120, 120, 15⟩, [⟨7, 50, 120, 120, 15⟩]) := by
  refine ⟨rfl, by decide, by decide⟩

omit [DecidableEq α] in
/-- C3: `set_measurements(t, p, h, q)` always leaves the `pollen` field at
`15`, and the argument `q` has no effect on the resulting state or on the
notification trace. -/
theorem set_measurements_pollen_is_15 (wd : WeatherData α) (t p h q q' : ℚ) :
    (wd.set_measurements t p h q).1.pollen = 15 ∧
    wd.set_measurements t p h q = wd.set_measurements t p h q' :=
  ⟨rfl, rfl⟩

/-- C4: `removeObserver(o)` removes exactly the first registry entry equal to
`o`, leaving later duplicates of `o` and all other entries in place; when `o`
is not in the registry it raises the container's "not found" error (`none`),
and the raising call leaves the registry unchanged (the object is returned
unmodified to the caller). -/
theorem removeObserver_first_match_or_error (wd : WeatherData α) (o : α) :
    (∀ l₁ l₂ : List α, wd.observers = l₁ ++ o :: l₂ → o ∉ l₁ →
      wd.removeObserver o = some { wd with observers := l₁ ++ l₂ }) ∧
    (o ∉ wd.observers → wd.removeObserver o = none) := by
  constructor
  · intro l₁ l₂ hobs hnm
    unfold WeatherData.removeObserver
    rw [hobs, listRemove_append_cons l₁ l₂ o hnm, Option.map_some']
  · intro hnm
    unfold WeatherData.removeObserver
    rw [listRemove_eq_none_of_not_mem hnm, Option.map_none']

/-- Witness for C4 at the registry `[1, 2, 2, 3]`: removing `2` deletes only
the first `2`; removing the absent `5` raises. -/
theorem removeObserver_first_match_or_error_witness :
    WeatherData.removeObserver ⟨[1, 2, 2, 3], 0, 0, 0, 0⟩ (2 : ℕ)
        = some ⟨[1, 2, 3], 0, 0, 0, 0⟩ ∧
    WeatherData.removeObserver ⟨[1, 2, 2, 3], 0, 0, 0, 0⟩ (5 : ℕ) = none := by
  constructor
  · exact (removeObserver_first_match_or_error
      (⟨[1, 2, 2, 3], 0, 0, 0, 0⟩ : WeatherData ℕ) 2).1 [1] [2, 3] rfl (by decide)
  · exact (removeObserver_first_match_or_error
      (⟨[1, 2, 2, 3], 0, 0, 0, 0⟩ : WeatherData ℕ) 5).2 (by decide)

omit [DecidableEq α] in
/-- C5: if during `notifyObservers()` the `update()` of the observer at
position `i` raises, the exception propagates out of `notifyObservers()`
(second component `true`), the observers after position `i` receive no
`update()` call for that broadcast, and the calls already made stand: the
invocation trace is exactly the first `i + 1` registry entries. -/
theorem notify_exception_aborts_rest (wd : WeatherData α)
    (raises : α → Bool) (i : ℕ) (hi : i < wd.observers.length)
    (hbefore : ∀ o ∈ wd.observers.take i, raises o = false)
    (hraise : raises (wd.observers.get ⟨i, hi⟩) = true) :
    wd.notifyObserversExc raises = (wd.observers.take (i + 1), true) :=
  notifyLoopExc_eq_take raises wd.observers i hi hbefore hraise

/-- Witness for C5: registry `[1, 2, 3]`, the `update()` of observer `2`
(position 1) raises — `1` and `2` were invoked, `3` was not, and the
exception propagated. -/
theorem notify_exception_aborts_rest_witness :
    WeatherData.notifyObserversExc (⟨[1, 2, 3], 0, 0, 0, 0⟩ : WeatherData ℕ)
        (fun o => o == 2) = ([1, 2], true) :=
  (notify_exception_aborts_rest (⟨[1, 2, 3], 0, 0, 0, 0⟩ : WeatherData ℕ)
    (fun o => o == 2) 1 (by decide) (by decide) (by decide)).trans (by decide)

/-- C6: registering the same observer twice (with no other registry changes,
starting from a registry not containing it) makes each subsequent
`notifyObservers()` invoke its `update()` exactly twice — registration
performs no identity or duplicate check. -/
theorem register_twice_two_updates (wd : WeatherData α) (o : α)
    (h : o ∉ wd.observers) :
    ((((wd.registerObserver o).registerObserver o).notifyObservers).map
        UpdateEvent.observer).count o = 2 := by
  rw [notifyObservers_map_observer]
  simp [WeatherData.registerObserver, List.count_append,
    List.count_eq_zero.mpr h]

/-- Witness for C6: registering `7` twice on a fresh `WeatherData` yields
exactly two `update()` invocations of `7` per notification. -/
theorem register_twice_two_updates_witness :
    ((((WeatherData.init (α := ℕ)).registerObserver 7).registerObserver
        7).notifyObservers.map UpdateEvent.observer).count 7 = 2 :=
  register_twice_two_updates WeatherData.init 7 (by decide)

/-- C7: for an observer `o` registered exactly once, once `removeObserver(o)`
succeeds `o` is gone from the registry, and every subsequent
`notifyObservers()` — after any further registry operations that do not
re-register `o`, and in particular the one triggered by any
`set_measurements` call — invokes no `update()` on `o`.  Removal only
changes the registry, so `update()` calls delivered before it are
unaffected. -/
theorem remove_stops_future_updates (wd wd' : WeatherData α) (o : α)
    (hcount : wd.observers.count o = 1)
    (hrem : wd.removeObserver o = some wd') :
    o ∉ wd'.observers ∧
    (∀ ops : List (RegOp α), RegOp.register o ∉ ops →
      (((applyOps wd' ops).notifyObservers).map UpdateEvent.observer).count o
        = 0) ∧
    (∀ t p h q : ℚ,
      (((wd'.set_measurements t p h q).2).map UpdateEvent.observer).count o
        = 0) := by
  obtain ⟨l, hl, hwd⟩ := Option.map_eq_some'.mp hrem
  have hobs : wd'.observers = l := by rw [← hwd]
  have hc : l.count o + 1 = wd.observers.count o := listRemove_count hl
  have hzero : l.count o = 0 := by omega
  have hnm : o ∉ wd'.observers := by
    rw [hobs]
    exact List.count_eq_zero.mp hzero
  refine ⟨hnm, ?_, ?_⟩
  · intro ops hops
    rw [notifyObservers_map_observer]
    exact List.count_eq_zero.mpr (applyOps_not_mem ops wd' o hnm hops)
  · intro t p h q
    have h2 : (wd'.set_measurements t p h q).2
        = WeatherData.notifyObservers ⟨wd'.observers, t, p, h, 15⟩ := rfl
    rw [h2, notifyObservers_map_observer]
    exact List.count_eq_zero.mpr hnm

/-- Witness for C7, the spec's scenario with A, B, C = 1, 2, 3: removing `2`
from `[1, 2, 3]` yields `[1, 3]`; a subsequent notification, and the
notification of a mutation to temperature `10`, deliver no `update()` to
`2` — and the mutation's trace shows `1` and `3` each observing
temperature `10`. -/
theorem remove_stops_future_updates_witness :
    ((2 : ℕ) ∉ (⟨[1, 3], 0, 0, 0, 0⟩ : WeatherData ℕ).observers) ∧
    ((((applyOps (⟨[1, 3], 0, 0, 0, 0⟩ : WeatherData ℕ) []).notifyObservers).map
        UpdateEvent.observer).count 2 = 0) ∧
    (((((⟨[1, 3], 0, 0, 0, 0⟩ : WeatherData ℕ).set_measurements 10 0 0 0).2).map
        UpdateEvent.observer).count 2 = 0) ∧
    ((⟨[1, 3], 0, 0, 0, 0⟩ : WeatherData ℕ).set_measurements 10 0 0 0).2
      = [⟨1, 10, 0, 0, 15⟩, ⟨3, 10, 0, 0, 15⟩] := by
  have T := remove_stops_future_updates
    (⟨[1, 2, 3], 0, 0, 0, 0⟩ : WeatherData ℕ)
    (⟨[1, 3], 0, 0, 0, 0⟩ : WeatherData ℕ) 2 (by decide) (by decide)
  exact ⟨T.1, T.2.1 [] (by decide), T.2.2 10 0 0 0, by decide⟩

omit [DecidableEq α] in
/-- C8: `TemperatureDisplay.update()` pulls the subject's temperature via
`get_temperature`, stores it in the observer's local field, then calls
`display()`, whose console output contains the value just pulled; in
particular, when the subject's temperature is `60.0` the output contains
`"temperature is: 60.0"`. -/
theorem temperatureDisplay_update_pulls_then_displays
    (d : TemperatureDisplay) (wd : WeatherData α) :
    (d.update wd).1.temperature = wd.get_temperature ∧
    (d.update wd).2 = "The current temperature is: "
      ++ floatRepr wd.get_temperature ∧
    (wd.temperature = 60 → ∃ s t : String,
      (d.update wd).2 = s ++ "temperature is: 60.0" ++ t) := by
  refine ⟨rfl, rfl, fun h60 => ⟨"The current ", "", ?_⟩⟩
  have h1 : (d.update wd).2 = "The current temperature is: " ++ floatRepr 60 := by
    simp [TemperatureDisplay.update, TemperatureDisplay.display,
      WeatherData.get_temperature, h60]
  rw [h1]
  decide

/-- Witness for C8: a `TemperatureDisplay` updating against a subject whose
temperature is `60.0` stores `60.0` and prints a line containing
`"temperature is: 60.0"`. -/
theorem temperatureDisplay_update_witness :
    (TemperatureDisplay.update ⟨0⟩ (⟨[], 60, 0, 0, 0⟩ : WeatherData ℕ)).1.temperature
        = WeatherData.get_temperature (⟨[], 60, 0, 0, 0⟩ : WeatherData ℕ) ∧
    ∃ s t : String,
      (TemperatureDisplay.update ⟨0⟩ (⟨[], 60, 0, 0, 0⟩ : WeatherData ℕ)).2
        = s ++ "temperature is: 60.0" ++ t := by
  have T := temperatureDisplay_update_pulls_then_displays ⟨0⟩
    (⟨[], 60, 0, 0, 0⟩ : WeatherData ℕ)
  exact ⟨T.1, T.2.2 rfl⟩

/-- C9: frame effects.  `registerObserver` and `removeObserver` leave every
state field unchanged (`WeatherData`'s four measurement fields, `Button`'s
`_state`) — their bodies are a single registry operation, so in this
embedding they return no notification trace at all, mirroring the absence
of any `update()` call in the source — and `set_measurements` leaves the
registry (contents and order) unchanged. -/
theorem register_remove_frame (wd : WeatherData α) (b : Button α) (o : α) :
    ((wd.registerObserver o).temperature = wd.temperature ∧
     (wd.registerObserver o).pressure = wd.pressure ∧
     (wd.registerObserver o).humidity = wd.humidity ∧
     (wd.registerObserver o).pollen = wd.pollen) ∧
    (∀ wd' : WeatherData α, wd.removeObserver o = some wd' →
      wd'.temperature = wd.temperature ∧ wd'.pressure = wd.pressure ∧
      wd'.humidity = wd.humidity ∧ wd'.pollen = wd.pollen) ∧
    (∀ t p h q : ℚ, (wd.set_measurements t p h q).1.observers = wd.observers) ∧
    ((b.registerObserver o)._state = b._state) ∧
    (∀ b' : Button α, b.removeObserver o = some b' → b'._state = b._state) := by
  refine ⟨⟨rfl, rfl, rfl, rfl⟩, ?_, fun t p h q => rfl, rfl, ?_⟩
  · intro wd' h
    obtain ⟨l, _, hwd⟩ := Option.map_eq_some'.mp h
    rw [← hwd]
    exact ⟨rfl, rfl, rfl, rfl⟩
  · intro b' h
    obtain ⟨l, _, hb⟩ := Option.map_eq_some'.mp h
    rw [← hb]

/-- Witness for C9: concrete register/remove/mutation calls on a
`WeatherData` with fields `1, 2, 3, 4` and a `Button` in state `ON`. -/
theorem register_remove_frame_witness :
    (((⟨[5], 1, 2, 3, 4⟩ : WeatherData ℕ).registerObserver 5).temperature
        = (⟨[5], 1, 2, 3, 4⟩ : WeatherData ℕ).temperature) ∧
    ((⟨[], 1, 2, 3, 4⟩ : WeatherData ℕ).temperature
        = (⟨[5], 1, 2, 3, 4⟩ : WeatherData ℕ).temperature) ∧
    (((⟨[5], 1, 2, 3, 4⟩ : WeatherData ℕ).set_measurements 10 11 12 13).1.observers
        = (⟨[5], 1, 2, 3, 4⟩ : WeatherData ℕ).observers) ∧
    (((⟨ButtonState.ON, [5]⟩ : Button ℕ).registerObserver 5)._state
        = (⟨ButtonState.ON, [5]⟩ : Button ℕ)._state) ∧
    ((⟨ButtonState.ON, []⟩ : Button ℕ)._state
        = (⟨ButtonState.ON, [5]⟩ : Button ℕ)._state) := by
  have T := register_remove_frame (⟨[5], 1, 2, 3, 4⟩ : WeatherData ℕ)
    (⟨ButtonState.ON, [5]⟩ : Button ℕ) 5
  exact ⟨T.1.1, (T.2.1 ⟨[], 1, 2, 3, 4⟩ (by decide)).1, T.2.2.1 10 11 12 13,
    T.2.2.2.1, T.2.2.2.2 ⟨ButtonState.ON, []⟩ (by decide)⟩

omit [DecidableEq α] in
/-- C10: a freshly constructed `WeatherData` has an empty observer registry
and `temperature = pressure = humidity = pollen = 0.0`, so each getter
returns `0.0` and a `notifyObservers()` before any registration invokes no
`update()`; a freshly constructed `Button` has an empty registry and state
`ButtonState.ON`. -/
theorem init_postconditions :
    (WeatherData.init (α := α)).observers = [] ∧
    WeatherData.get_temperature (WeatherData.init (α := α)) = 0 ∧
    WeatherData.get_pressure (WeatherData.init (α := α)) = 0 ∧
    WeatherData.get_humidity (WeatherData.init (α := α)) = 0 ∧
    WeatherData.get_pollen (WeatherData.init (α := α)) = 0 ∧
    (WeatherData.init (α := α)).notifyObservers = [] ∧
    (Button.init (α := α)).observers = [] ∧
    (Button.init (α := α))._state = ButtonState.ON :=
  ⟨rfl, rfl, rfl, rfl, rfl, rfl, rfl, rfl⟩

end ObserverPattern
